import Mathlib

/-!
Verification of the pagespeed-diagnostics web application.

This file gives a shallow embedding of the data model and the pure logic of
the repository (score normalization, audit bucketing, security-scan risk
thresholding, the request handlers' control flow) and proves properties of
the embedded definitions.  Machine arithmetic from the source is modelled
with exact rationals and integers; fallible operations return Option values;
the effectful handlers are modelled as pure functions of an explicit
environment recording the outcomes of their external calls.
-/

namespace PagespeedDiagnostics

/-! ## Score normalization (pages/api/analyze.ts and DiagnosticsDisplay.tsx)

JavaScript's Math.round rounds half-up: Math.round x = floor (x + 0.5).
-/

/-- JavaScript Math.round on an exact rational. -/
def jsRound (q : ℚ) : ℤ := Int.floor (q + 1 / 2)

/-- One reference held by a category to an audit (category.auditRefs[i]). -/
structure AuditRef where
  id : String
deriving DecidableEq

/-- One category object of the engine's result (lhr.categories.<id>), as
consumed by the API normalization (score) and by the rendering layer
(id, title, score, auditRefs).  auditRefs is Option so that an object
without that property (falsy in the source guards) is representable. -/
structure Category where
  id : String
  title : String
  score : Option ℚ
  auditRefs : Option (List AuditRef)
deriving DecidableEq

/-- The score derivation used for each field of the API response, from
analyze.ts lines 140-144:
cat?.score != null ? Math.round(cat.score * 100) : null. -/
def apiCategoryScore (c : Option Category) : Option ℤ :=
  match c with
  | none => none
  | some cat =>
    match cat.score with
    | none => none
    | some s => some (jsRound (s * 100))

/-- The category gauge score of the rendering layer, DiagnosticsDisplay.tsx
line 103: category.score != null ? Math.round(category.score * 100) : null. -/
def categoryGaugeScore (c : Category) : Option ℤ :=
  match c.score with
  | none => none
  | some s => some (jsRound (s * 100))

/-! ## Audits and rendering buckets (components/DiagnosticsDisplay.tsx) -/

/-- One audit of the engine's result (lhr.audits[id]), with the fields the
rendering layer consults. -/
structure Audit where
  id : String
  title : String
  score : Option ℚ
  scoreDisplayMode : String
deriving DecidableEq

/-- The lhr.audits object: a finite map from audit id to audit. -/
abbrev AuditMap : Type := List (String × Audit)

/-- CategorySection lines 89-91: map each audit reference to its audit in
the map and keep only those that exist and whose display mode is neither
notApplicable nor error (the .map followed by the truthiness-and-mode
filter in the source is one filterMap plus the mode filter here). -/
def relevantAudits (refs : List AuditRef) (allAudits : AuditMap) : List Audit :=
  (refs.filterMap fun ref => List.lookup ref.id allAudits).filter fun audit =>
    audit.scoreDisplayMode != "notApplicable" && audit.scoreDisplayMode != "error"

/-- CategorySection line 93: audit.score !== null && audit.score < 1 &&
audit.scoreDisplayMode !== manual. -/
def opportunitiesAndDiagnostics (refs : List AuditRef) (allAudits : AuditMap) : List Audit :=
  (relevantAudits refs allAudits).filter fun audit =>
    (match audit.score with
     | none => false
     | some s => decide (s < 1)) && audit.scoreDisplayMode != "manual"

/-- CategorySection line 94: audit.scoreDisplayMode === manual. -/
def manualChecks (refs : List AuditRef) (allAudits : AuditMap) : List Audit :=
  (relevantAudits refs allAudits).filter fun audit =>
    audit.scoreDisplayMode == "manual"

/-- CategorySection line 95: audit.score === 1 && mode !== manual &&
mode !== informative. -/
def passedAudits (refs : List AuditRef) (allAudits : AuditMap) : List Audit :=
  (relevantAudits refs allAudits).filter fun audit =>
    decide (audit.score = some 1) && audit.scoreDisplayMode != "manual" &&
      audit.scoreDisplayMode != "informative"

/-- AuditItem lines 43-46: the component returns null (renders no row) when
the display mode is notApplicable or error; true means a row is rendered. -/
def renderAuditRow (audit : Audit) : Bool :=
  if audit.scoreDisplayMode == "notApplicable" || audit.scoreDisplayMode == "error" then
    false
  else
    true

/-- DiagnosticsDisplay line 189: the only category ids the display maps
over. -/
def categoryDisplayOrder : List String :=
  ["performance", "accessibility", "best-practices", "seo"]

/-- The data of one rendered category section: the category id, the gauge
score, and the three audit buckets. -/
structure SectionView where
  catId : String
  gaugeScore : Option ℤ
  opportunities : List Audit
  manual : List Audit
  passed : List Audit
deriving DecidableEq

/-- CategorySection lines 83-103: returns none (no section) when the
category is absent, has no auditRefs, has id pwa, or all three buckets are
empty; otherwise the section data. -/
def categorySectionRender (category : Option Category) (allAudits : AuditMap) :
    Option SectionView :=
  match category with
  | none => none
  | some c =>
    match c.auditRefs with
    | none => none
    | some refs =>
      if c.id == "pwa" then none
      else
        let opps := opportunitiesAndDiagnostics refs allAudits
        let manualOnes := manualChecks refs allAudits
        let passedOnes := passedAudits refs allAudits
        if opps.isEmpty && manualOnes.isEmpty && passedOnes.isEmpty then none
        else some ⟨c.id, categoryGaugeScore c, opps, manualOnes, passedOnes⟩

/-- DiagnosticsDisplay lines 191-201: look up each id of
categoryDisplayOrder in the categories map and render its section when the
category exists. -/
def diagnosticsDisplayRender (categories : List (String × Category)) (audits : AuditMap) :
    List SectionView :=
  categoryDisplayOrder.filterMap fun categoryId =>
    match List.lookup categoryId categories with
    | some c => categorySectionRender (some c) audits
    | none => none

/-! ## Security scan (pages/api/security-scan.ts) -/

/-- The status enumeration of a security check item. -/
inductive Status
  | pass
  | fail
  | warn
  | info
  | clean
  | infected
  | not_blacklisted
  | blacklisted
deriving DecidableEq

/-- One security check item; details of type string-or-string-array in the
source is modelled as an optional string (the only populated cases carry a
single string). -/
structure SecurityCheckItem where
  check : Option String
  text : Option String
  status : Status
  message : Option String
  details : Option String
deriving DecidableEq

/-- security-scan.ts lines 43-54: builds either a summary item (text,
status, details := message) or a full item (check, text, status,
message := message or empty string, details). -/
def createCheckItem (identifier : String) (status : Status) (message : Option String)
    (details : Option String) (isSummaryItem : Bool) : SecurityCheckItem :=
  if isSummaryItem then
    ⟨none, some identifier, status, none, message⟩
  else
    ⟨some identifier, some identifier, status, some (message.getD ""), details⟩

/-- Outcome of the header fetch (axios.get) when it succeeds: whether a
content-security-policy header is present. -/
structure FetchInfo where
  hasCSP : Bool
deriving DecidableEq

/-- The environment of one security-scan request: the protocol of the
parsed URL (none when the URL constructor throws), the fetch outcome (none
when axios.get throws), and the two hard-coded substring matches on the
target URL. -/
structure ScanEnv where
  parsedProtocol : Option String
  fetched : Option FetchInfo
  urlHasMalwareExample : Bool
  urlHasWarningExample : Bool
deriving DecidableEq

/-- security-scan.ts lines 86-134: the malware-and-security item list, in
the order the handler pushes items: HTTPS check (or URL-parsing failure),
then reachability and CSP header checks (or fetch failure), then the
mocked malware checks keyed off the URL contents. -/
def malwareAndSecurityItems (env : ScanEnv) : List SecurityCheckItem :=
  (match env.parsedProtocol with
   | some p =>
     if p == "https:" then
       [createCheckItem "HTTPS Usage" .pass
         (some "Site is served over a secure HTTPS connection.") none false]
     else
       [createCheckItem "HTTPS Usage" .fail
         (some "Site is not using HTTPS! This is a critical security vulnerability.") none false]
   | none =>
     [createCheckItem "URL Parsing" .fail
       (some "The provided URL could not be parsed correctly.") none false])
  ++ (match env.fetched with
      | some f =>
        [createCheckItem "Website Reachable" .pass
          (some "Successfully connected to the website.") none false]
        ++ (if f.hasCSP then
              [createCheckItem "Content-Security-Policy (CSP)" .pass
                (some "CSP header is implemented.") none false]
            else
              [createCheckItem "Content-Security-Policy (CSP)" .warn
                (some "CSP header is missing.") none false])
      | none =>
        [createCheckItem "Website Fetch & Headers" .fail
          (some "Could not connect to the website to analyze headers.") none false])
  ++ (if env.urlHasMalwareExample then
        [createCheckItem "JS.Trojan.Fake Found" .infected
          (some "A known trojan signature was detected.") none false]
      else if env.urlHasWarningExample then
        [createCheckItem "Outdated jQuery Version" .warn
          (some "Version 1.12.4 detected, which has known vulnerabilities.") none false]
      else
        [createCheckItem "Generic Malware Scan" .clean
          (some "No common malware signatures found.") none false])

/-- security-scan.ts lines 126-134: the blacklist item list. -/
def blacklistStatusItems (env : ScanEnv) : List SecurityCheckItem :=
  if env.urlHasMalwareExample then
    [createCheckItem "ExampleBadGuysList" .blacklisted
      (some "Reason: Distribution of malware.") none false]
  else if env.urlHasWarningExample then
    []
  else
    [createCheckItem "Google Safe Browsing" .not_blacklisted
      (some "Domain clean.") none false]

/-- security-scan.ts line 141: count of infected or blacklisted items. -/
def criticalFailures (allChecks : List SecurityCheckItem) : ℕ :=
  (allChecks.filter fun r => r.status == .infected || r.status == .blacklisted).length

/-- security-scan.ts line 142: count of fail items. -/
def highRiskFailures (allChecks : List SecurityCheckItem) : ℕ :=
  (allChecks.filter fun r => r.status == .fail).length

/-- security-scan.ts line 143: count of warn items. -/
def warnings (allChecks : List SecurityCheckItem) : ℕ :=
  (allChecks.filter fun r => r.status == .warn).length

/-- The securityRisk enumeration. -/
inductive RiskLevel
  | Minimal
  | Low
  | Medium
  | High
  | Critical
deriving DecidableEq

/-- The overallStatusSeverity enumeration. -/
inductive Severity
  | good
  | warning
  | danger
  | info
deriving DecidableEq

/-- security-scan.ts lines 139-165: the final risk level and severity from
the status counts over the concatenation of both item lists. -/
def riskAndSeverity (malwareAndSecurity blacklist : List SecurityCheckItem) :
    RiskLevel × Severity :=
  let allChecks := malwareAndSecurity ++ blacklist
  if 0 < criticalFailures allChecks then (.Critical, .danger)
  else if 2 ≤ highRiskFailures allChecks then (.High, .danger)
  else if highRiskFailures allChecks = 1 ∨ 3 ≤ warnings allChecks then (.Medium, .warning)
  else if 0 < warnings allChecks then (.Low, .warning)
  else (.Minimal, .good)

/-- The risk and severity of one whole scan request. -/
def securityScanRisk (env : ScanEnv) : RiskLevel × Severity :=
  riskAndSeverity (malwareAndSecurityItems env) (blacklistStatusItems env)

/-! ## History retrieval (pages/api/reports.ts) -/

/-- One persisted report row (the fields the handler and the claim
consult). -/
structure Report where
  rowId : ℕ
  userId : String
  createdAt : ℕ
  url : String
deriving DecidableEq

/-- The ordering used by the handler's query: most recent first
(orderBy createdAt desc). -/
def reportLater (a b : Report) : Prop := b.createdAt ≤ a.createdAt

instance : DecidableRel reportLater :=
  fun a b => inferInstanceAs (Decidable (b.createdAt ≤ a.createdAt))

instance : IsTotal Report reportLater :=
  ⟨fun a b => le_total b.createdAt a.createdAt⟩

instance : IsTrans Report reportLater :=
  ⟨fun _ _ _ hab hbc => le_trans hbc hab⟩

/-- prisma.report.findMany of reports.ts lines 21-25, modelled from its
arguments (the Prisma client itself is an external collaborator): filter
the store by the owning user id, order by creation time descending, take
at most 20 rows. -/
def findManyReports (db : List Report) (userId : String) : List Report :=
  (List.insertionSort reportLater (db.filter fun r => r.userId == userId)).take 20

/-- session.user of the authentication session; id is Option so that a
missing or falsy id is representable. -/
structure SessionUser where
  id : Option String
deriving DecidableEq

/-- The authentication session object. -/
structure Session where
  user : Option SessionUser
deriving DecidableEq

/-- reports.ts line 14: the guard
!session || !session.user || !(session.user).id; the result is the
authenticated user id when the guard passes (a present but empty id string
is falsy in the source and so rejected). -/
def sessionUserId (session : Option Session) : Option String :=
  match session with
  | none => none
  | some s =>
    match s.user with
    | none => none
    | some u =>
      match u.id with
      | none => none
      | some uid => if uid = "" then none else some uid

/-- The response of the reports handler; unauthorized and methodNotAllowed
carry no report data. -/
inductive ReportsResponse
  | methodNotAllowed
  | unauthorized
  | serverError
  | ok (reports : List Report)
deriving DecidableEq

/-- reports.ts handler: 405 on non-GET, 401 without a valid identity,
otherwise the query result (500 when the query throws, modelled by the
dbOk flag). -/
def reportsHandler (method : String) (session : Option Session) (dbOk : Bool)
    (db : List Report) : ReportsResponse :=
  if method != "GET" then .methodNotAllowed
  else
    match sessionUserId session with
    | none => .unauthorized
    | some userId =>
      if dbOk then .ok (findManyReports db userId) else .serverError

/-! ## Audit invocation handler (pages/api/analyze.ts) -/

/-- analyze.ts line 88: the categories requested from the engine. -/
def lighthouseOnlyCategories : List String :=
  ["performance", "accessibility", "best-practices", "seo", "pwa"]

/-- The lhr.categories object, destructured into the five names the
handler consults. -/
structure LhrCategories where
  performance : Option Category
  accessibility : Option Category
  bestPractices : Option Category
  seo : Option Category
  pwa : Option Category
deriving DecidableEq

/-- The engine's result object, with the fields the handler consumes. -/
structure Lhr where
  categories : LhrCategories
  audits : AuditMap
  timing : Option String
  finalUrl : String
  lighthouseVersion : String
  fetchTime : String
deriving DecidableEq

/-- The fullLighthouseDetails payload of the response (analyze.ts lines
145-153). -/
structure FullLighthouseDetails where
  categories : LhrCategories
  audits : AuditMap
  timing : Option String
  finalUrl : String
  lighthouseVersion : String
  fetchTime : String
deriving DecidableEq

/-- The ApiAnalyzeResponseData structure of analyze.ts lines 24-33. -/
structure ApiAnalyzeResponseData where
  url : String
  strategy : String
  performanceScore : Option ℤ
  accessibilityScore : Option ℤ
  bestPracticesScore : Option ℤ
  seoScore : Option ℤ
  pwaScore : Option ℤ
  fullLighthouseDetails : Option FullLighthouseDetails
deriving DecidableEq

/-- analyze.ts lines 145-153. -/
def mkFullDetails (lhr : Lhr) : FullLighthouseDetails :=
  ⟨lhr.categories, lhr.audits, lhr.timing, lhr.finalUrl, lhr.lighthouseVersion, lhr.fetchTime⟩

/-- analyze.ts lines 137-154: the responseData value. -/
def mkResponseData (url strategy : String) (lhr : Lhr) : ApiAnalyzeResponseData :=
  ⟨url, strategy,
   apiCategoryScore lhr.categories.performance,
   apiCategoryScore lhr.categories.accessibility,
   apiCategoryScore lhr.categories.bestPractices,
   apiCategoryScore lhr.categories.seo,
   apiCategoryScore lhr.categories.pwa,
   some (mkFullDetails lhr)⟩

/-- Observable events of one analyze request: browser lifecycle and the
persistence outcome (dbErrorLogged models the console.error of the
swallowed catch at lines 172-174). -/
inductive AnalyzeEvent
  | browserLaunched
  | browserClosed
  | dbErrorLogged
  | reportSaved
deriving DecidableEq

/-- Outcome of the lighthouse invocation: it threw, it produced no report
object (runnerResult or runnerResult.lhr missing, lines 129-132), or it
returned a report. -/
inductive LighthouseOutcome
  | throws
  | noReport
  | ok (lhr : Lhr)
deriving DecidableEq

/-- The environment of one analyze request: the request method, the zod
validation result (none when parse throws), the session user id, whether
puppeteer.launch succeeds, the port parsed from the websocket endpoint
(none models the missing-port branch of lines 71-76), the lighthouse
outcome, and whether prisma.report.create succeeds. -/
structure AnalyzeEnv where
  method : String
  validBody : Option (String × String)
  userId : Option String
  launchOk : Bool
  wsPort : Option ℕ
  lighthouse : LighthouseOutcome
  dbSaveOk : Bool
deriving DecidableEq

/-- The observable result of one analyze request: HTTP status, the success
payload (none on every error response), and the event trace. -/
structure AnalyzeResult where
  status : ℕ
  payload : Option ApiAnalyzeResponseData
  events : List AnalyzeEvent
deriving DecidableEq

/-- analyze.ts handler (lines 42-222).  Control flow: 405 before the try
block; a zod failure throws and is answered 400 from the catch block; a
launch failure throws before the browser variable is assigned, so the
finally block has nothing to close; once launched, every path appends a
browserClosed event for the finally block (the missing-port branch closes
explicitly at line 74 and then again in finally); a lighthouse throw or a
missing report is answered 500 from the catch block; on success the report
row is saved only for an authenticated user, a save failure is logged and
swallowed, and the response is 200 with the full payload. -/
def analyzeHandler (env : AnalyzeEnv) : AnalyzeResult :=
  if env.method != "POST" then ⟨405, none, []⟩
  else
    match env.validBody with
    | none => ⟨400, none, []⟩
    | some (url, strategy) =>
      if !env.launchOk then ⟨500, none, []⟩
      else
        match env.wsPort with
        | none => ⟨500, none, [.browserLaunched, .browserClosed, .browserClosed]⟩
        | some _ =>
          match env.lighthouse with
          | .throws => ⟨500, none, [.browserLaunched, .browserClosed]⟩
          | .noReport => ⟨500, none, [.browserLaunched, .browserClosed]⟩
          | .ok lhr =>
            let dbEvents : List AnalyzeEvent :=
              match env.userId with
              | none => []
              | some _ => if env.dbSaveOk then [.reportSaved] else [.dbErrorLogged]
            ⟨200, some (mkResponseData url strategy lhr),
              [.browserLaunched] ++ dbEvents ++ [.browserClosed]⟩

/-! ## Concrete sample data used by the witness theorems. -/

/-- A notApplicable audit. -/
def auditNA : Audit := ⟨"doc-na", "Not applicable audit", none, "notApplicable"⟩

/-- Audit references naming the sample audit. -/
def refsNA : List AuditRef := [⟨"doc-na"⟩]

/-- An audit map holding the sample audit. -/
def mapNA : AuditMap := [("doc-na", auditNA)]

/-- A category with id pwa. -/
def pwaCategory : Category := ⟨"pwa", "PWA", some (1 / 2), some []⟩

/-- A scan environment for a plain-http URL that is otherwise clean. -/
def httpScanEnv : ScanEnv := ⟨some "http:", some ⟨true⟩, false, false⟩

/-- A check list holding a single fail item. -/
def failCheckList : List SecurityCheckItem :=
  [createCheckItem "HTTPS Usage" .fail
    (some "Site is not using HTTPS! This is a critical security vulnerability.") none false]

/-- A session carrying a valid user id. -/
def aliceSession : Option Session := some ⟨some ⟨some "alice"⟩⟩

/-- A two-row report store owned by two users. -/
def sampleDb : List Report :=
  [⟨1, "alice", 5, "https://a.example"⟩, ⟨2, "bob", 9, "https://b.example"⟩,
   ⟨3, "alice", 7, "https://c.example"⟩]

/-- An engine result with one scored category. -/
def sampleLhr : Lhr :=
  ⟨⟨some ⟨"performance", "Performance", some (1 / 2), some []⟩, none, none, none, none⟩,
   [], none, "https://a.example", "11.0.0", "2024-01-01"⟩

/-- An analyze environment: authenticated user, successful audit, failing
database save. -/
def dbFailEnv : AnalyzeEnv :=
  ⟨"POST", some ("https://a.example", "mobile"), some "alice", true, some 9222,
   .ok sampleLhr, false⟩

/-! ## Client form-submission handlers (security-checker.tsx)

Each handler is modelled as a function from the raw text-field value to the
URL submitted to the server, or none when no request is issued (empty input
or form-validation error).  JavaScript's String.prototype.trim and
String.prototype.startsWith are implemented over the character list so that
the kernel can evaluate them on concrete strings. -/

/-- Whitespace stripped by JavaScript String.prototype.trim (the characters
that occur in practice in a pasted URL field). -/
def isJsWhite (c : Char) : Bool :=
  c = ' ' || c = '\t' || c = '\n' || c = '\r'

/-- JavaScript String.prototype.trim. -/
def jsTrim (s : String) : String :=
  String.mk (((s.data.dropWhile isJsWhite).reverse.dropWhile isJsWhite).reverse)

/-- JavaScript String.prototype.startsWith. -/
def jsStartsWith (s p : String) : Bool :=
  p.data.isPrefixOf s.data

/-- SecurityCheckerPage.handleSubmit URL preprocessing (lines 79-107):
trims, rejects empty, prepends https:// when the value starts with neither
http:// nor https://, then posts the resulting URL. -/
def securityCheckerSubmitUrl (url : String) : Option String :=
  let currentUrl := jsTrim url
  if currentUrl = "" then none
  else if !(jsStartsWith currentUrl "http://") && !(jsStartsWith currentUrl "https://") then
    some (String.append "https://" currentUrl)
  else
    some currentUrl

/-- HomePage.handleSubmit URL preprocessing (pages/index.tsx lines 465-484):
trims, rejects empty, and rejects with a form error (submitting nothing)
any value that starts with neither http:// nor https://; otherwise the
trimmed value is submitted unchanged. -/
def analyzeSubmitUrl (url : String) : Option String :=
  let currentUrl := jsTrim url
  if currentUrl = "" then none
  else if !(jsStartsWith currentUrl "http://") && !(jsStartsWith currentUrl "https://") then
    none
  else
    some currentUrl

end PagespeedDiagnostics

namespace PagespeedDiagnostics

/-- **C1.** For every category raw score s, when the category is present and
its score is non-null and lies in the interval from 0 to 1, both the API
normalization of /api/analyze and the category gauge of the rendering layer
display round (s * 100) as an integer; a null raw score or an absent
category yields an absent displayed score, never an error. -/
theorem category_score_normalization (cat : Category) (s : ℚ)
    (hs : cat.score = some s) (h0 : 0 ≤ s) (h1 : s ≤ 1) :
    apiCategoryScore (some cat) = some (round (s * 100)) ∧
    categoryGaugeScore cat = some (round (s * 100)) ∧
    apiCategoryScore none = none ∧
    (∀ c : Category, c.score = none →
      apiCategoryScore (some c) = none ∧ categoryGaugeScore c = none) := by
  have hround : jsRound (s * 100) = round (s * 100) := by
    rw [round_eq]; rfl
  refine ⟨?_, ?_, rfl, ?_⟩
  · simp [apiCategoryScore, hs, hround]
  · simp [categoryGaugeScore, hs, hround]
  · intro c hc
    exact ⟨by simp [apiCategoryScore, hc], by simp [categoryGaugeScore, hc]⟩

/-- Witness for C1 at the concrete raw score 947/1000, displayed as 95. -/
theorem category_score_normalization_witness :
    apiCategoryScore (some ⟨"performance", "Performance", some (947 / 1000), none⟩) =
      some (round ((947 : ℚ) / 1000 * 100)) ∧
    round ((947 : ℚ) / 1000 * 100) = 95 :=
  ⟨(category_score_normalization ⟨"performance", "Performance", some (947 / 1000), none⟩
      (947 / 1000) rfl (by norm_num) (by norm_num)).1,
    by norm_num [round_eq]⟩

/-- **C4 counterexample.** The claim that every submitted URL not starting
with https:// gets https:// auto-prepended before submission fails on both
cited handlers: the analysis form handler submits nothing at all for
example.com (it sets a form error instead), and the security-checker
handler submits http://example.com unchanged. -/
theorem submit_url_autoprepend_counterexample :
    analyzeSubmitUrl "example.com" = none ∧
    analyzeSubmitUrl "example.com" ≠ some "https://example.com" ∧
    securityCheckerSubmitUrl "http://example.com" = some "http://example.com" ∧
    securityCheckerSubmitUrl "http://example.com" ≠
      some (String.append "https://" "http://example.com") := by
  refine ⟨by decide, by decide, by decide, by decide⟩

/-- **C4 (amended).** The security-checker form handler prepends https://
exactly when the trimmed non-empty URL starts with neither http:// nor
https://, and submits URLs that already carry either scheme unchanged; the
analysis form handler never prepends: it submits URLs carrying either
scheme unchanged and rejects all others with a form error, submitting
nothing. -/
theorem submit_url_preprocessing (s : String) :
    (jsTrim s = "" → securityCheckerSubmitUrl s = none ∧ analyzeSubmitUrl s = none) ∧
    (jsTrim s ≠ "" → jsStartsWith (jsTrim s) "http://" = false →
      jsStartsWith (jsTrim s) "https://" = false →
      securityCheckerSubmitUrl s = some (String.append "https://" (jsTrim s)) ∧
      analyzeSubmitUrl s = none) ∧
    (jsTrim s ≠ "" →
      (jsStartsWith (jsTrim s) "http://" = true ∨ jsStartsWith (jsTrim s) "https://" = true) →
      securityCheckerSubmitUrl s = some (jsTrim s) ∧ analyzeSubmitUrl s = some (jsTrim s)) := by
  refine ⟨?_, ?_, ?_⟩
  · intro h
    constructor <;> simp [securityCheckerSubmitUrl, analyzeSubmitUrl, h]
  · intro h h1 h2
    constructor <;> simp [securityCheckerSubmitUrl, analyzeSubmitUrl, h, h1, h2]
  · intro h h12
    rcases h12 with h1 | h1 <;>
      constructor <;> simp [securityCheckerSubmitUrl, analyzeSubmitUrl, h, h1]

/-- Witness for the amended C4 at the bare host example.com and at the
plain-http URL. -/
theorem submit_url_preprocessing_witness :
    (securityCheckerSubmitUrl "example.com" =
        some (String.append "https://" (jsTrim "example.com")) ∧
      analyzeSubmitUrl "example.com" = none) ∧
    (securityCheckerSubmitUrl "http://example.com" = some (jsTrim "http://example.com") ∧
      analyzeSubmitUrl "http://example.com" = some (jsTrim "http://example.com")) :=
  ⟨(submit_url_preprocessing "example.com").2.1 (by decide) (by decide) (by decide),
    (submit_url_preprocessing "http://example.com").2.2 (by decide) (Or.inl (by decide))⟩

/-- **C2.** For every category audit-reference list and audit map, after
dropping audits whose display mode is notApplicable or error, the three
rendering buckets contain exactly the audits the claim states:
opportunities/diagnostics those with non-null score below 1 and mode not
manual, manual those with mode manual, passed those with score exactly 1
and mode neither manual nor informative. -/
theorem audit_bucket_partition (refs : List AuditRef) (m : AuditMap) (a : Audit) :
    (a ∈ relevantAudits refs m ↔
      (∃ r, r ∈ refs ∧ List.lookup r.id m = some a) ∧
        a.scoreDisplayMode ≠ "notApplicable" ∧ a.scoreDisplayMode ≠ "error") ∧
    (a ∈ opportunitiesAndDiagnostics refs m ↔
      a ∈ relevantAudits refs m ∧ (∃ s, a.score = some s ∧ s < 1) ∧
        a.scoreDisplayMode ≠ "manual") ∧
    (a ∈ manualChecks refs m ↔
      a ∈ relevantAudits refs m ∧ a.scoreDisplayMode = "manual") ∧
    (a ∈ passedAudits refs m ↔
      a ∈ relevantAudits refs m ∧ a.score = some 1 ∧
        a.scoreDisplayMode ≠ "manual" ∧ a.scoreDisplayMode ≠ "informative") := by
  refine ⟨?_, ?_, ?_, ?_⟩
  · simp [relevantAudits, List.mem_filter, List.mem_filterMap, and_assoc]
  · rcases hsc : a.score with _ | s <;>
      simp [opportunitiesAndDiagnostics, List.mem_filter, hsc, and_assoc]
  · simp [manualChecks, List.mem_filter]
  · simp [passedAudits, List.mem_filter, and_assoc]

/-- **C7.** An audit whose display mode is notApplicable or error is in
none of the three rendering buckets (nor among the relevant audits they
are drawn from) and is never rendered as a row. -/
theorem not_applicable_error_audits_excluded (refs : List AuditRef) (m : AuditMap)
    (a : Audit)
    (h : a.scoreDisplayMode = "notApplicable" ∨ a.scoreDisplayMode = "error") :
    a ∉ relevantAudits refs m ∧
    a ∉ opportunitiesAndDiagnostics refs m ∧
    a ∉ manualChecks refs m ∧
    a ∉ passedAudits refs m ∧
    renderAuditRow a = false := by
  have hrel : a ∉ relevantAudits refs m := by
    intro hmem
    have h2 := (List.mem_filter.mp hmem).2
    rcases h with h | h <;> simp [h] at h2
  refine ⟨hrel, ?_, ?_, ?_, ?_⟩
  · intro hmem
    unfold opportunitiesAndDiagnostics at hmem
    exact hrel (List.mem_filter.mp hmem).1
  · intro hmem
    unfold manualChecks at hmem
    exact hrel (List.mem_filter.mp hmem).1
  · intro hmem
    unfold passedAudits at hmem
    exact hrel (List.mem_filter.mp hmem).1
  · rcases h with h | h <;> simp [renderAuditRow, h]

/-- Witness for C7 at a concrete notApplicable audit referenced by the
category. -/
theorem not_applicable_error_audits_excluded_witness :
    auditNA ∉ relevantAudits refsNA mapNA ∧
    auditNA ∉ opportunitiesAndDiagnostics refsNA mapNA ∧
    auditNA ∉ manualChecks refsNA mapNA ∧
    auditNA ∉ passedAudits refsNA mapNA ∧
    renderAuditRow auditNA = false :=
  not_applicable_error_audits_excluded refsNA mapNA auditNA (Or.inl rfl)

/-- The count of critical items is positive exactly when some item is
infected or blacklisted. -/
lemma criticalFailures_pos_iff (l : List SecurityCheckItem) :
    0 < criticalFailures l ↔ ∃ i ∈ l, i.status = .infected ∨ i.status = .blacklisted := by
  rw [criticalFailures, ← List.countP_eq_length_filter, List.countP_pos_iff]
  simp

/-- The count of warn items is positive exactly when some item has status
warn. -/
lemma warnings_pos_iff (l : List SecurityCheckItem) :
    0 < warnings l ↔ ∃ i ∈ l, i.status = .warn := by
  rw [warnings, ← List.countP_eq_length_filter, List.countP_pos_iff]
  simp

/-- The count of fail items is positive exactly when some item has status
fail. -/
lemma highRiskFailures_pos_iff (l : List SecurityCheckItem) :
    0 < highRiskFailures l ↔ ∃ i ∈ l, i.status = .fail := by
  rw [highRiskFailures, ← List.countP_eq_length_filter, List.countP_pos_iff]
  simp

/-- **C3.** The final risk level and severity of a security scan are the
stated thresholding over status counts of the concatenation of the
malware-and-security list and the blacklist list: any infected or
blacklisted item gives Critical/danger; otherwise at least two fail items
give High/danger; otherwise exactly one fail item or at least three warn
items give Medium/warning; otherwise any warn item gives Low/warning;
otherwise Minimal/good. -/
theorem security_risk_thresholding (m b : List SecurityCheckItem) :
    ((∃ i ∈ m ++ b, i.status = .infected ∨ i.status = .blacklisted) →
      riskAndSeverity m b = (.Critical, .danger)) ∧
    ((∀ i ∈ m ++ b, ¬(i.status = .infected ∨ i.status = .blacklisted)) →
      2 ≤ highRiskFailures (m ++ b) →
      riskAndSeverity m b = (.High, .danger)) ∧
    ((∀ i ∈ m ++ b, ¬(i.status = .infected ∨ i.status = .blacklisted)) →
      ¬2 ≤ highRiskFailures (m ++ b) →
      (highRiskFailures (m ++ b) = 1 ∨ 3 ≤ warnings (m ++ b)) →
      riskAndSeverity m b = (.Medium, .warning)) ∧
    ((∀ i ∈ m ++ b, ¬(i.status = .infected ∨ i.status = .blacklisted)) →
      highRiskFailures (m ++ b) = 0 →
      ¬3 ≤ warnings (m ++ b) →
      (∃ i ∈ m ++ b, i.status = .warn) →
      riskAndSeverity m b = (.Low, .warning)) ∧
    ((∀ i ∈ m ++ b, ¬(i.status = .infected ∨ i.status = .blacklisted)) →
      highRiskFailures (m ++ b) = 0 →
      (∀ i ∈ m ++ b, ¬i.status = .warn) →
      riskAndSeverity m b = (.Minimal, .good)) := by
  have hcrit0 : ∀ h : (∀ i ∈ m ++ b, ¬(i.status = .infected ∨ i.status = .blacklisted)),
      ¬0 < criticalFailures (m ++ b) := by
    intro h hpos
    obtain ⟨i, hi, hst⟩ := (criticalFailures_pos_iff (m ++ b)).mp hpos
    exact h i hi hst
  refine ⟨?_, ?_, ?_, ?_, ?_⟩
  · intro h
    have hc : 0 < criticalFailures (m ++ b) := (criticalFailures_pos_iff (m ++ b)).mpr h
    simp [riskAndSeverity, hc]
  · intro h h2
    simp [riskAndSeverity, hcrit0 h, h2]
  · intro h h2 h1
    simp [riskAndSeverity, hcrit0 h, h2, h1]
  · intro h hf0 hw3 hw
    have hwpos : 0 < warnings (m ++ b) := (warnings_pos_iff (m ++ b)).mpr hw
    simp [riskAndSeverity, hcrit0 h, hf0, hw3, hwpos]
  · intro h hf0 hw
    have hw0 : ¬0 < warnings (m ++ b) := by
      intro hpos
      obtain ⟨i, hi, hst⟩ := (warnings_pos_iff (m ++ b)).mp hpos
      exact hw i hi hst
    have hweq : warnings (m ++ b) = 0 := Nat.eq_zero_of_not_pos hw0
    simp [riskAndSeverity, hcrit0 h, hf0, hweq]

/-- Witness for C3 at a list with exactly one fail item: Medium/warning. -/
theorem security_risk_thresholding_witness :
    riskAndSeverity failCheckList [] = (.Medium, .warning) :=
  (security_risk_thresholding failCheckList []).2.2.1 (by decide) (by decide) (by decide)

/-- Any fail item in the concatenated check lists keeps the risk level out
of Minimal and Low. -/
lemma risk_not_low_of_fail (m b : List SecurityCheckItem)
    (h : ∃ i ∈ m ++ b, i.status = .fail) :
    (riskAndSeverity m b).1 ≠ .Minimal ∧ (riskAndSeverity m b).1 ≠ .Low ∧
    ((riskAndSeverity m b).1 = .Medium ∨ (riskAndSeverity m b).1 = .High ∨
      (riskAndSeverity m b).1 = .Critical) := by
  have hf : 0 < highRiskFailures (m ++ b) := (highRiskFailures_pos_iff (m ++ b)).mpr h
  by_cases hc : 0 < criticalFailures (m ++ b)
  · simp [riskAndSeverity, hc]
  · by_cases h2 : 2 ≤ highRiskFailures (m ++ b)
    · simp [riskAndSeverity, hc, h2]
    · have h1 : highRiskFailures (m ++ b) = 1 := by omega
      simp [riskAndSeverity, hc, h2, h1]

/-- **C10.** For every scan whose URL parses with a protocol other than
https:, the handler appends a fail-status HTTPS Usage check, so the
concatenated check lists contain a fail item and the scan's risk level is
never Minimal and never Low: it is Medium, High, or Critical. -/
theorem non_https_scan_risk (env : ScanEnv) (p : String)
    (hp : env.parsedProtocol = some p) (hps : p ≠ "https:") :
    createCheckItem "HTTPS Usage" .fail
        (some "Site is not using HTTPS! This is a critical security vulnerability.")
        none false ∈ malwareAndSecurityItems env ∧
    (∃ i ∈ malwareAndSecurityItems env ++ blacklistStatusItems env, i.status = .fail) ∧
    (securityScanRisk env).1 ≠ .Minimal ∧ (securityScanRisk env).1 ≠ .Low ∧
    ((securityScanRisk env).1 = .Medium ∨ (securityScanRisk env).1 = .High ∨
      (securityScanRisk env).1 = .Critical) := by
  have hmem : createCheckItem "HTTPS Usage" .fail
      (some "Site is not using HTTPS! This is a critical security vulnerability.")
      none false ∈ malwareAndSecurityItems env := by
    simp [malwareAndSecurityItems, hp, hps]
  have hfail : ∃ i ∈ malwareAndSecurityItems env ++ blacklistStatusItems env,
      i.status = .fail := by
    refine ⟨createCheckItem "HTTPS Usage" .fail
      (some "Site is not using HTTPS! This is a critical security vulnerability.")
      none false, List.mem_append_left _ hmem, rfl⟩
  have hrisk := risk_not_low_of_fail (malwareAndSecurityItems env)
    (blacklistStatusItems env) hfail
  exact ⟨hmem, hfail, hrisk.1, hrisk.2.1, hrisk.2.2⟩

/-- Witness for C10 at a clean plain-http scan environment. -/
theorem non_https_scan_risk_witness :
    (∃ i ∈ malwareAndSecurityItems httpScanEnv ++ blacklistStatusItems httpScanEnv,
        i.status = .fail) ∧
    (securityScanRisk httpScanEnv).1 ≠ .Minimal ∧
    (securityScanRisk httpScanEnv).1 ≠ .Low :=
  ⟨(non_https_scan_risk httpScanEnv "http:" rfl (by decide)).2.1,
    (non_https_scan_risk httpScanEnv "http:" rfl (by decide)).2.2.1,
    (non_https_scan_risk httpScanEnv "http:" rfl (by decide)).2.2.2.1⟩

/-- **C5.** A GET request to /api/reports without a valid authenticated
identity is answered 401 carrying no report data, whatever the store and
database outcome; with a valid identity (and a successful query) the
response holds at most 20 rows, all owned by that identity, ordered most
recent first. -/
theorem reports_handler_auth (method : String) (session : Option Session)
    (db : List Report) :
    (∀ dbOk : Bool, method = "GET" → sessionUserId session = none →
      reportsHandler method session dbOk db = .unauthorized) ∧
    (∀ uid : String, method = "GET" → sessionUserId session = some uid →
      ∃ l, reportsHandler method session true db = .ok l ∧
        l.length ≤ 20 ∧ (∀ r ∈ l, r.userId = uid) ∧ l.Pairwise reportLater) := by
  constructor
  · intro dbOk h hnone
    subst h
    simp [reportsHandler, hnone]
  · intro uid h hsome
    subst h
    refine ⟨findManyReports db uid, by simp [reportsHandler, hsome], ?_, ?_, ?_⟩
    · exact List.length_take_le 20 _
    · intro r hr
      have hr2 : r ∈ List.insertionSort reportLater (db.filter fun x => x.userId == uid) :=
        List.take_subset _ _ hr
      have hr3 : r ∈ db.filter fun x => x.userId == uid :=
        (List.perm_insertionSort reportLater _).mem_iff.mp hr2
      have := (List.mem_filter.mp hr3).2
      exact eq_of_beq this
    · exact List.Pairwise.sublist (List.take_sublist _ _)
        (List.sorted_insertionSort reportLater _)

/-- Witness for C5: unauthenticated request rejected; authenticated
request over a concrete three-row store. -/
theorem reports_handler_auth_witness :
    reportsHandler "GET" none true sampleDb = .unauthorized ∧
    ∃ l, reportsHandler "GET" aliceSession true sampleDb = .ok l ∧
      l.length ≤ 20 ∧ (∀ r ∈ l, r.userId = "alice") ∧ l.Pairwise reportLater :=
  ⟨(reports_handler_auth "GET" none sampleDb).1 true rfl rfl,
    (reports_handler_auth "GET" aliceSession sampleDb).2 "alice" rfl (by decide)⟩

/-- **C6.** For an authenticated analyze request whose audit succeeds but
whose database save fails, the handler still answers 200 with the full
report payload; the persistence error is only logged (dbErrorLogged event)
and the response is identical in status and payload to the run where the
save succeeds. -/
theorem db_failure_still_succeeds (env : AnalyzeEnv) (url strategy uid : String)
    (lhr : Lhr) (port : ℕ)
    (hm : env.method = "POST") (hb : env.validBody = some (url, strategy))
    (hu : env.userId = some uid) (hl : env.launchOk = true)
    (hw : env.wsPort = some port) (hlh : env.lighthouse = .ok lhr)
    (hdb : env.dbSaveOk = false) :
    (analyzeHandler env).status = 200 ∧
    (analyzeHandler env).payload = some (mkResponseData url strategy lhr) ∧
    AnalyzeEvent.dbErrorLogged ∈ (analyzeHandler env).events ∧
    (analyzeHandler ⟨env.method, env.validBody, env.userId, env.launchOk,
        env.wsPort, env.lighthouse, true⟩).status = (analyzeHandler env).status ∧
    (analyzeHandler ⟨env.method, env.validBody, env.userId, env.launchOk,
        env.wsPort, env.lighthouse, true⟩).payload = (analyzeHandler env).payload := by
  obtain ⟨m, vb, u, lo, wp, lh, db⟩ := env
  simp only at hm hb hu hl hw hlh hdb
  subst hm hb hu hl hw hlh hdb
  refine ⟨rfl, rfl, ?_, rfl, rfl⟩
  simp [analyzeHandler]

/-- Witness for C6 at a concrete environment with a failing save. -/
theorem db_failure_still_succeeds_witness :
    (analyzeHandler dbFailEnv).status = 200 ∧
    (analyzeHandler dbFailEnv).payload =
      some (mkResponseData "https://a.example" "mobile" sampleLhr) ∧
    AnalyzeEvent.dbErrorLogged ∈ (analyzeHandler dbFailEnv).events :=
  ⟨(db_failure_still_succeeds dbFailEnv "https://a.example" "mobile" "alice" sampleLhr
      9222 rfl rfl rfl rfl rfl rfl rfl).1,
    (db_failure_still_succeeds dbFailEnv "https://a.example" "mobile" "alice" sampleLhr
      9222 rfl rfl rfl rfl rfl rfl rfl).2.1,
    (db_failure_still_succeeds dbFailEnv "https://a.example" "mobile" "alice" sampleLhr
      9222 rfl rfl rfl rfl rfl rfl rfl).2.2.1⟩

/-- **C8.** On every exit path of the analyze handler on which the browser
process was launched, the browser is closed before the request completes. -/
theorem browser_closed_on_every_exit (env : AnalyzeEnv)
    (h : AnalyzeEvent.browserLaunched ∈ (analyzeHandler env).events) :
    AnalyzeEvent.browserClosed ∈ (analyzeHandler env).events := by
  obtain ⟨m, vb, u, lo, wp, lh, db⟩ := env
  by_cases hm : (m != "POST") = true
  · simp [analyzeHandler, hm] at h
  · cases vb with
    | none => simp [analyzeHandler, hm] at h
    | some p =>
      obtain ⟨url, strategy⟩ := p
      cases lo <;> cases wp <;> cases lh <;> cases u <;> cases db <;>
        simp_all [analyzeHandler]

/-- Witness for C8 at a concrete environment whose trace launched a
browser. -/
theorem browser_closed_on_every_exit_witness :
    AnalyzeEvent.browserClosed ∈ (analyzeHandler dbFailEnv).events :=
  browser_closed_on_every_exit dbFailEnv (by decide)

/-- **C9.** The diagnostics rendering never produces a section for the pwa
category: every rendered section stems from one of the four ids
performance, accessibility, best-practices, seo; a category whose id is
pwa or that lacks audit references yields no section; pwa is not among the
ids the display iterates over — even though the audit invocation requests
the pwa category and the API response carries a pwaScore derived from it. -/
theorem pwa_category_never_rendered :
    (∀ (cats : List (String × Category)) (m : AuditMap) (s : SectionView),
      s ∈ diagnosticsDisplayRender cats m →
        s.catId ≠ "pwa" ∧
        ∃ cid, cid ∈ categoryDisplayOrder ∧
          ∃ c, List.lookup cid cats = some c ∧ categorySectionRender (some c) m = some s) ∧
    (∀ (c : Category) (m : AuditMap),
      c.id = "pwa" ∨ c.auditRefs = none → categorySectionRender (some c) m = none) ∧
    (∀ m : AuditMap, categorySectionRender none m = none) ∧
    "pwa" ∉ categoryDisplayOrder ∧
    "pwa" ∈ lighthouseOnlyCategories ∧
    (∀ (url strategy : String) (lhr : Lhr),
      (mkResponseData url strategy lhr).pwaScore = apiCategoryScore lhr.categories.pwa) := by
  have hsec : ∀ (c : Category) (m : AuditMap) (s : SectionView),
      categorySectionRender (some c) m = some s → s.catId = c.id ∧ c.id ≠ "pwa" := by
    intro c m s heq
    cases hrefs : c.auditRefs with
    | none => simp [categorySectionRender, hrefs] at heq
    | some refs =>
      simp only [categorySectionRender, hrefs] at heq
      by_cases hid : (c.id == "pwa") = true
      · simp [hid] at heq
      · simp only [hid, Bool.false_eq_true, if_false] at heq
        by_cases hemp : ((opportunitiesAndDiagnostics refs m).isEmpty &&
            (manualChecks refs m).isEmpty && (passedAudits refs m).isEmpty) = true
        · simp [hemp] at heq
        · simp only [hemp, Bool.false_eq_true, if_false, Option.some.injEq] at heq
          subst heq
          exact ⟨rfl, by simpa using hid⟩
  refine ⟨?_, ?_, fun _ => rfl, by decide, by decide, fun _ _ _ => rfl⟩
  · intro cats m s hs
    unfold diagnosticsDisplayRender at hs
    obtain ⟨cid, hcid, heq⟩ := List.mem_filterMap.mp hs
    cases hlk : List.lookup cid cats with
    | none => rw [hlk] at heq; cases heq
    | some c =>
      rw [hlk] at heq
      have h2 := hsec c m s heq
      exact ⟨h2.1 ▸ h2.2, cid, hcid, c, hlk, heq⟩
  · intro c m h
    rcases h with h | h
    · cases hrefs : c.auditRefs with
      | none => simp [categorySectionRender, hrefs]
      | some refs => simp [categorySectionRender, hrefs, h]
    · simp [categorySectionRender, h]

/-- Witness for C9 at a concrete category with id pwa. -/
theorem pwa_category_never_rendered_witness :
    categorySectionRender (some pwaCategory) [] = none :=
  pwa_category_never_rendered.2.1 pwaCategory [] (Or.inl rfl)

end PagespeedDiagnostics
